import Mathlib

/-
Verification of the challenge-lifecycle core of the competition bot
(src/main.py).  The Python code is shallowly embedded: SQLite tables
become lists of record structures, REAL columns become `Rat`, datetimes
become integer second counts, and calendar dates become integer day
indices (a date at index `d` starts at second `d * 86400`).  Fallible
code (Python exceptions) is embedded with `Except`/`Option`.
-/

/-! ## StatusResolver: `CompetitionBot.get_challenge_status` (src/main.py:245-294) -/

/-- The five persisted statuses are strings in the database; the resolver
itself only ever produces the four tags below
(src/main.py:281-294). -/
inductive ChallengeStatus where
  | upcoming
  | active
  | grace_period
  | ended
deriving DecidableEq

/-- The string the code compares and persists for each resolved tag. -/
def statusStr : ChallengeStatus → String
  | .upcoming => "upcoming"
  | .active => "active"
  | .grace_period => "grace_period"
  | .ended => "ended"

def secondsPerDay : Int := 86400

/-- `datetime.strptime(start_date, '%Y-%m-%d')`: midnight at the start of
the start date (src/main.py:258). -/
def start_instant (startDay : Int) : Int := startDay * secondsPerDay

/-- `strptime(end_date) + timedelta(days=1) - timedelta(seconds=1)`:
23:59:59 of the (inclusive) end date (src/main.py:259). -/
def end_instant (endDay : Int) : Int := (endDay + 1) * secondsPerDay - 1

/-- `grace_end = end_datetime + timedelta(days=1)` (src/main.py:260). -/
def grace_instant (endDay : Int) : Int := end_instant endDay + secondsPerDay

/-- The branch structure of `get_challenge_status` (src/main.py:281-294),
over day indices for the already-parsed start and end dates and an
integer second count for `datetime.now()`. -/
def resolve_status (now startDay endDay : Int) : ChallengeStatus :=
  if now < start_instant startDay then .upcoming
  else if start_instant startDay ≤ now ∧ now ≤ end_instant endDay then .active
  else if end_instant endDay < now ∧ now ≤ grace_instant endDay then .grace_period
  else .ended

/-! ## Row layout: `init_database` schema vs the resolver's tuple unpacking -/

/-- A raw 10-column row of the `challenges` table, by physical column
position, as returned by `SELECT *` (src/main.py:240).  `col0` is the
integer primary key; every other column is carried as text (the code
applies `str(...)` before parsing the slots it treats as dates). -/
structure Row10 where
  col0 : Int
  col1 : String
  col2 : String
  col3 : String
  col4 : String
  col5 : String
  col6 : String
  col7 : String
  col8 : String
  col9 : String
deriving DecidableEq

/-- Physical column order declared by the `CREATE TABLE challenges`
statement (src/main.py:112-125): id, description, scoring_system,
challenge_type, type_description, start_date, end_date, status,
created_by, created_at. -/
def schemaOrderRow (id : Int)
    (description scoring_system challenge_type type_description
     start_date end_date status created_by created_at : String) : Row10 :=
  ⟨id, description, scoring_system, challenge_type, type_description,
   start_date, end_date, status, created_by, created_at⟩

/-- Physical column order of a legacy 8-column table extended by the
`ALTER TABLE ... ADD COLUMN` migrations (src/main.py:128-135): id,
description, scoring_system, start_date, end_date, status, created_by,
created_at, challenge_type, type_description.  This is the order the
10-column unpacking in `get_challenge_status` assumes
(src/main.py:256). -/
def legacyOrderRow (id : Int)
    (description scoring_system start_date end_date status created_by
     created_at challenge_type type_description : String) : Row10 :=
  ⟨id, description, scoring_system, start_date, end_date, status,
   created_by, created_at, challenge_type, type_description⟩

def digitVal (c : Char) : Int := (c.toNat : Int) - 48

/-- Model of `datetime.strptime(s, '%Y-%m-%d')`: succeeds exactly on a
ten-character `YYYY-MM-DD` string with an in-range month and day, and
returns the (year, month, day) triple; on any other string it is the
`ValueError` that Python raises. -/
def parseDateChars : List Char → Option (Int × Int × Int)
  | [y1, y2, y3, y4, h1, m1, m2, h2, d1, d2] =>
    if h1 = '-' ∧ h2 = '-' ∧ y1.isDigit ∧ y2.isDigit ∧ y3.isDigit ∧ y4.isDigit
        ∧ m1.isDigit ∧ m2.isDigit ∧ d1.isDigit ∧ d2.isDigit then
      let y := 1000 * digitVal y1 + 100 * digitVal y2 + 10 * digitVal y3 + digitVal y4
      let m := 10 * digitVal m1 + digitVal m2
      let d := 10 * digitVal d1 + digitVal d2
      if 1 ≤ m ∧ m ≤ 12 ∧ 1 ≤ d ∧ d ≤ 31 then some (y, m, d) else none
    else none
  | _ => none

def parseDateStr (s : String) : Option (Int × Int × Int) := parseDateChars s.data

/-- Day index for a parsed (year, month, day) triple.  Any injective,
within-a-month-exact encoding serves: every concrete theorem below stays
inside a single month, where consecutive days differ by exactly 1. -/
def dayIdx (ymd : Int × Int × Int) : Int :=
  372 * ymd.1 + 31 * (ymd.2.1 - 1) + (ymd.2.2 - 1)

/-- `get_challenge_status` on a raw 10-column row (src/main.py:250-294):
the 10-column unpacking binds `start_date` to column 3 and `end_date` to
column 4 of the physical row, then parses both with
`datetime.strptime(·, '%Y-%m-%d')`; a parse failure is the ValueError
the Python function raises instead of returning a status. -/
def get_challenge_status_row (now : Int) (r : Row10) : Except String ChallengeStatus :=
  match parseDateStr r.col3 with
  | none => .error "ValueError: start_date"
  | some s =>
    match parseDateStr r.col4 with
    | none => .error "ValueError: end_date"
    | some e => .ok (resolve_status now (dayIdx s) (dayIdx e))

/-- C1: the status resolver partitions time into exactly four phases:
strictly before start-of-day of the start date it returns `upcoming`;
from then through 23:59:59 of the end date it returns `active` (the end
instant itself is still `active`); for the following 24 hours, one
second past the end instant up to and including the grace instant, it
returns `grace_period`; and afterwards `ended`. -/
theorem resolve_status_partition (now startDay endDay : Int)
    (h : startDay ≤ endDay) :
    (now < start_instant startDay →
      resolve_status now startDay endDay = .upcoming)
    ∧ (start_instant startDay ≤ now ∧ now ≤ end_instant endDay →
      resolve_status now startDay endDay = .active)
    ∧ (end_instant endDay + 1 ≤ now ∧ now ≤ grace_instant endDay →
      resolve_status now startDay endDay = .grace_period)
    ∧ (grace_instant endDay < now →
      resolve_status now startDay endDay = .ended)
    ∧ resolve_status (end_instant endDay) startDay endDay = .active
    ∧ resolve_status (end_instant endDay + 1) startDay endDay = .grace_period := by
  simp only [resolve_status, start_instant, end_instant, grace_instant, secondsPerDay]
  refine ⟨fun h1 => ?_, fun h2 => ?_, fun h3 => ?_, fun h4 => ?_, ?_, ?_⟩ <;>
    split_ifs <;> first | rfl | omega

/-- Witness for C1 at concrete dates: day 3 through day 5, evaluated at
the end instant. -/
theorem resolve_status_partition_witness :
    resolve_status (end_instant 5) 3 5 = .active :=
  (resolve_status_partition (end_instant 5) 3 5 (by norm_num)).2.2.2.2.1

/-- C3: for a 10-column row laid out as the table-creation schema
declares, the resolver's unpacking binds `challenge_type` into its
start-date slot (column 3) and `type_description` into its end-date slot
(column 4), so date parsing raises a ValueError instead of returning a
status; the resolver returns normally on a row in the legacy migrated
column order it assumes. -/
theorem schema_order_unpack_errors (now : Int) (id : Int)
    (description scoring_system challenge_type type_description
     start_date end_date status created_by created_at : String)
    (hct : challenge_type = "points" ∨ challenge_type = "change")
    (s e : Int × Int × Int)
    (hsd : parseDateStr start_date = some s)
    (hed : parseDateStr end_date = some e) :
    (schemaOrderRow id description scoring_system challenge_type
        type_description start_date end_date status created_by
        created_at).col3 = challenge_type
    ∧ (schemaOrderRow id description scoring_system challenge_type
        type_description start_date end_date status created_by
        created_at).col4 = type_description
    ∧ (∃ msg, get_challenge_status_row now
        (schemaOrderRow id description scoring_system challenge_type
          type_description start_date end_date status created_by
          created_at) = .error msg)
    ∧ get_challenge_status_row now
        (legacyOrderRow id description scoring_system start_date end_date
          status created_by created_at challenge_type type_description)
      = .ok (resolve_status now (dayIdx s) (dayIdx e)) := by
  refine ⟨rfl, rfl, ?_, ?_⟩
  · rcases hct with hct | hct <;> subst hct <;>
      exact ⟨"ValueError: start_date", rfl⟩
  · simp only [get_challenge_status_row, legacyOrderRow, hsd, hed]

/-- Witness for C3: a concrete fresh-schema row errors while the same
semantic challenge in legacy order resolves. -/
theorem schema_order_unpack_errors_witness :
    get_challenge_status_row 0
        (legacyOrderRow 1 "a fitness challenge" "100 points per workout"
          "2025-01-01" "2025-01-05" "upcoming" "7" "2025-01-01 00:00:00"
          "points" "Points-based challenge where users earn points for activities")
      = .ok (resolve_status 0 (dayIdx (2025, 1, 1)) (dayIdx (2025, 1, 5))) :=
  (schema_order_unpack_errors 0 1 "a fitness challenge"
    "100 points per workout" "points"
    "Points-based challenge where users earn points for activities"
    "2025-01-01" "2025-01-05" "upcoming" "7" "2025-01-01 00:00:00"
    (Or.inl rfl) (2025, 1, 1) (2025, 1, 5) rfl rfl).2.2.2

/-! ## Data model: the SQLite tables used by the lifecycle core -/

/-- A `challenges` row in its semantic fields, stored in the legacy
migrated physical order that `get_challenge_status` assumes
(src/main.py:256). -/
structure Chal where
  id : Int
  description : String
  scoring_system : String
  start_date : String
  end_date : String
  status : String
  created_by : String
  created_at : String
  challenge_type : String
  type_description : String
deriving DecidableEq

/-- The raw row a `SELECT *` returns for a legacy-order challenge. -/
def Chal.toRow (c : Chal) : Row10 :=
  legacyOrderRow c.id c.description c.scoring_system c.start_date
    c.end_date c.status c.created_by c.created_at c.challenge_type
    c.type_description

/-- A `scores` row (src/main.py:99-109); `date` is an encoded day key. -/
structure ScoreRow where
  user_id : Int
  date : Int
  points : Int
  challenge_id : Int
deriving DecidableEq

/-- A `baseline_values` row (src/main.py:187-198); the REAL columns are
embedded as `Rat`.  `last_updated` is not carried: no claim mentions it. -/
structure BaselineRow where
  user_id : Int
  challenge_id : Int
  baseline_value : Rat
  current_value : Rat
deriving DecidableEq

/-- A `challenge_notifications` row (src/main.py:177-184), primary key
(challenge_id, notification_type), with its `sent_date` timestamp. -/
structure NotifRow where
  challenge_id : Int
  notification_type : String
  sent_date : Int
deriving DecidableEq

/-- The persisted store, one list per table, challenges ordered most
recently created first (so the head of a filter models
`ORDER BY created_at DESC LIMIT 1`). -/
structure BotState where
  challenges : List Chal
  scores : List ScoreRow
  baseline_values : List BaselineRow
  challenge_notifications : List NotifRow
deriving DecidableEq

/-- `status IN ("active", "upcoming", "grace_period")` (src/main.py:240). -/
def inActiveSet (s : String) : Bool :=
  s == "active" || s == "upcoming" || s == "grace_period"

/-- `get_current_challenge` (src/main.py:236-243): the most recently
created challenge whose persisted status is in the active set. -/
def get_current_challenge (st : BotState) : Option Chal :=
  (st.challenges.filter fun c => inActiveSet c.status).head?

/-- `update_challenge_status` (src/main.py:296-302). -/
def update_challenge_status (cid : Int) (new_status : String)
    (cs : List Chal) : List Chal :=
  cs.map fun c => if c.id = cid then { c with status := new_status } else c

/-! ## NotificationGate (src/main.py:304-325) -/

/-- `has_notification_been_sent` (src/main.py:304-314). -/
def has_notification_been_sent (cid : Int) (ty : String)
    (tbl : List NotifRow) : Bool :=
  tbl.any fun r => r.challenge_id == cid && r.notification_type == ty

/-- `mark_notification_sent` (src/main.py:316-325): an
`INSERT OR REPLACE` keyed on (challenge_id, notification_type), whose
`sent_date` column takes its `DEFAULT CURRENT_TIMESTAMP`, i.e. the time
of this call.  SQLite's `INSERT OR REPLACE` deletes any row with the
same primary key and inserts the new one. -/
def mark_notification_sent (now cid : Int) (ty : String)
    (tbl : List NotifRow) : List NotifRow :=
  tbl.filter (fun r => !(r.challenge_id == cid && r.notification_type == ty))
    ++ [⟨cid, ty, now⟩]

/-- C6 counterexample: calling `mark_notification_sent` a second time
for the same key at a later clock time replaces the stored row, changing
its `sent_date`; the row is not left unchanged as the claim states. -/
theorem mark_notification_sent_replaces_sent_date :
    mark_notification_sent 0 5 "start" [] = [⟨5, "start", 0⟩]
    ∧ mark_notification_sent 1 5 "start" [⟨5, "start", 0⟩] = [⟨5, "start", 1⟩]
    ∧ ([⟨5, "start", 1⟩] : List NotifRow) ≠ [⟨5, "start", 0⟩] := by
  refine ⟨rfl, by decide, by decide⟩

/-- C6 as amended: `mark_notification_sent` is an insert-or-replace on
the composite key (challenge, event kind): after any call the key reads
as fired, a repeated call is absorbed by the latest one (so the key set
and `has_notification_been_sent` are unchanged), and a repeated call at
the same clock time has no effect at all; but each repeated call
refreshes `sent_date` to its own call time rather than preserving the
first row. -/
theorem mark_notification_sent_upsert (now now2 cid : Int) (ty : String)
    (tbl : List NotifRow) :
    has_notification_been_sent cid ty (mark_notification_sent now cid ty tbl) = true
    ∧ mark_notification_sent now2 cid ty (mark_notification_sent now cid ty tbl)
      = mark_notification_sent now2 cid ty tbl
    ∧ mark_notification_sent now cid ty (mark_notification_sent now cid ty tbl)
      = mark_notification_sent now cid ty tbl := by
  refine ⟨?_, ?_, ?_⟩
  · simp [has_notification_been_sent, mark_notification_sent]
  · simp [mark_notification_sent, List.filter_append, List.filter_filter]
  · simp [mark_notification_sent, List.filter_append, List.filter_filter]

/-! ## ScoreLedger: add / remove / edit score, baselines -/

/-- `datetime(current_year, current_month, day).date()` as a day key
(src/main.py:1075). -/
def mkScoreDate (year month day : Int) : Int := dayIdx (year, month, day)

/-- The per-row match used by the delete statements of
`remove_score_confirm` and `edit_score_confirm`
(src/main.py:1436-1439, 1613-1616): same user, a date in the selected
set, same challenge. -/
def scoreMatches (uid : Int) (dateKeys : List Int) (cid : Int)
    (r : ScoreRow) : Bool :=
  r.user_id == uid && dateKeys.contains r.date && r.challenge_id == cid

/-- `add_score_points` validation (src/main.py:1000-1023): reject
non-positive totals, totals over 1,000,000, an empty date list, and a
per-day share over 100,000; otherwise the per-day amount is the floor
division `points // len(dates)`. -/
def add_score_points_check (points : Int) (numDates : Nat) : Option Int :=
  if points ≤ 0 then none
  else if points > 1000000 then none
  else if numDates = 0 then none
  else
    if points / (numDates : Int) > 100000 then none
    else some (points / (numDates : Int))

/-- `add_score_confirm` (src/main.py:1041-1096): re-resolves the current
challenge's status and rejects unless it is `active` or `grace_period`;
on success inserts one row of `points_per_day` per selected date. -/
def add_score_confirm (now : Int) (st : BotState) (user_id : Int)
    (dates : List Int) (points_per_day year month : Int) :
    Except String BotState :=
  match get_current_challenge st with
  | none => .error "No active challenge found"
  | some c =>
    match get_challenge_status_row now c.toRow with
    | .error e => .error e
    | .ok actual =>
      if statusStr actual = "active" ∨ statusStr actual = "grace_period" then
        .ok { st with scores := st.scores ++ dates.map fun d =>
              ⟨user_id, mkScoreDate year month d, points_per_day, c.id⟩ }
      else .error "Cannot add scores right now"

/-- `remove_score_confirm` (src/main.py:1410-1457): requires a current
challenge but performs no resolved-status check; deletes every matching
score row. -/
def remove_score_confirm (st : BotState) (user_id : Int)
    (dates : List Int) (year month : Int) : Except String BotState :=
  match get_current_challenge st with
  | none => .error "No active challenge found"
  | some c =>
    .ok { st with scores := st.scores.filter fun r =>
          !(scoreMatches user_id (dates.map (mkScoreDate year month)) c.id r) }

/-- `edit_score_confirm` (src/main.py:1587-1642): requires a current
challenge but performs no resolved-status check; deletes the matching
rows and, when the per-day amount is positive, re-inserts one row per
date. -/
def edit_score_confirm (st : BotState) (user_id : Int) (dates : List Int)
    (points_per_day year month : Int) : Except String BotState :=
  match get_current_challenge st with
  | none => .error "No active challenge found"
  | some c =>
    let deleted := st.scores.filter fun r =>
      !(scoreMatches user_id (dates.map (mkScoreDate year month)) c.id r)
    .ok { st with scores :=
          if points_per_day > 0 then
            deleted ++ dates.map fun d =>
              ⟨user_id, mkScoreDate year month d, points_per_day, c.id⟩
          else deleted }

/-- `setbaseline_value` (src/main.py:3110-3160): bound-checks the value,
then runs `INSERT OR REPLACE INTO baseline_values` with both
`baseline_value` and `current_value` set to the entered value.  No
resolved-status check is performed. -/
def setbaseline_value (user_id challenge_id : Int) (value : Rat)
    (tbl : List BaselineRow) : Option (List BaselineRow) :=
  if |value| > 1000000 then none
  else some (tbl.filter
      (fun r => !(r.user_id == user_id && r.challenge_id == challenge_id))
    ++ [⟨user_id, challenge_id, value, value⟩])

/-- `updatevalue_value` (src/main.py:3217-3282): bound-checks the value,
then runs `UPDATE baseline_values SET current_value = ?` for the
(user, challenge) key.  No resolved-status check is performed. -/
def updatevalue_value (user_id challenge_id : Int) (new_value : Rat)
    (tbl : List BaselineRow) : Option (List BaselineRow) :=
  if |new_value| > 1000000 then none
  else some (tbl.map fun r =>
    if r.user_id == user_id && r.challenge_id == challenge_id then
      { r with current_value := new_value }
    else r)

/-- A challenge whose persisted status is still `active` but whose date
range (Jan 1-2, 2025) has long passed. -/
def staleActiveChal : Chal :=
  ⟨1, "a fitness challenge", "100 points per workout", "2025-01-01",
   "2025-01-02", "active", "7", "2025-01-01 00:00:00", "points",
   "Points-based challenge where users earn points for activities"⟩

/-- Store holding `staleActiveChal` and one score row for user 42. -/
def staleActiveState : BotState :=
  ⟨[staleActiveChal], [⟨42, mkScoreDate 2025 1 1, 10, 1⟩], [], []⟩

/-- A clock far past the grace instant of `staleActiveChal`. -/
def lateNow : Int := 100000000000

/-- C2 counterexample: with the challenge resolving to `ended`,
`remove_score_confirm` still deletes the stored score rows — the
mutation is written even though the resolved status is neither `active`
nor `grace_period`, so not every score/baseline mutation re-checks the
resolved status. -/
theorem remove_score_confirm_ignores_resolved_status :
    get_challenge_status_row lateNow staleActiveChal.toRow = .ok .ended
    ∧ remove_score_confirm staleActiveState 42 [1] 2025 1
      = .ok { staleActiveState with scores := [] }
    ∧ staleActiveState.scores ≠ [] := by
  refine ⟨by rfl, by rfl, by decide⟩

/-- C2 as amended: only the add-score confirmation re-checks the
resolved status at call time, rejecting with a state error (and writing
nothing) unless the status resolves to `active` or `grace_period`; the
remove-score path (like edit-score, set-baseline and
update-current-value) writes its mutation for any current challenge
without re-checking the resolved status. -/
theorem add_score_confirm_guard (now : Int) (st : BotState) (c : Chal)
    (actual : ChallengeStatus) (user_id points_per_day year month : Int)
    (dates : List Int)
    (hc : get_current_challenge st = some c)
    (hs : get_challenge_status_row now c.toRow = .ok actual) :
    (statusStr actual = "active" ∨ statusStr actual = "grace_period" →
      add_score_confirm now st user_id dates points_per_day year month
        = .ok { st with scores := st.scores ++ dates.map fun d =>
              ⟨user_id, mkScoreDate year month d, points_per_day, c.id⟩ })
    ∧ (¬(statusStr actual = "active" ∨ statusStr actual = "grace_period") →
      add_score_confirm now st user_id dates points_per_day year month
        = .error "Cannot add scores right now")
    ∧ remove_score_confirm st user_id dates year month
      = .ok { st with scores := st.scores.filter fun r =>
            !(scoreMatches user_id (dates.map (mkScoreDate year month)) c.id r) } := by
  refine ⟨fun hyes => ?_, fun hno => ?_, ?_⟩
  · simp only [add_score_confirm, hc, hs]
    rw [if_pos hyes]
  · simp only [add_score_confirm, hc, hs]
    rw [if_neg hno]
  · simp only [remove_score_confirm, hc]

/-- Witness for C2's amended theorem on the stale-active store: the
resolved status is `ended`, so adding is rejected. -/
theorem add_score_confirm_guard_witness :
    add_score_confirm lateNow staleActiveState 42 [1] 10 2025 1
      = .error "Cannot add scores right now" :=
  (add_score_confirm_guard lateNow staleActiveState staleActiveChal
    .ended 42 10 2025 1 [1] (by rfl) (by rfl)).2.1 (by decide)

/-- Lookup of the stored row for one (user, challenge) key. -/
def baseline_lookup (user_id challenge_id : Int)
    (tbl : List BaselineRow) : Option BaselineRow :=
  (tbl.filter fun r =>
    r.user_id == user_id && r.challenge_id == challenge_id).head?

/-- C5 counterexample: `setbaseline_value` is `INSERT OR REPLACE`, so a
second set-baseline call for the same (participant, challenge) replaces
the stored `baseline_value` with the new value — the first write does
not win. -/
theorem setbaseline_value_not_first_write_wins :
    setbaseline_value 42 1 10 [] = some [⟨42, 1, 10, 10⟩]
    ∧ setbaseline_value 42 1 20 [⟨42, 1, 10, 10⟩] = some [⟨42, 1, 20, 20⟩]
    ∧ (⟨42, 1, 20, 20⟩ : BaselineRow).baseline_value ≠ (10 : Rat) := by
  refine ⟨?_, ?_, by norm_num⟩
  · rw [setbaseline_value, if_neg (by norm_num)]; rfl
  · rw [setbaseline_value, if_neg (by norm_num)]; rfl

/-- C5 as amended: the baseline is set with the last write winning: each
accepted set-baseline call replaces the stored row for the
(participant, challenge) key, and on every write — including creation —
the stored `current_value` defaults to the written baseline value. -/
theorem setbaseline_value_last_write_wins (user_id challenge_id : Int)
    (v1 v2 : Rat) (tbl tbl1 tbl2 : List BaselineRow)
    (h1 : setbaseline_value user_id challenge_id v1 tbl = some tbl1)
    (h2 : setbaseline_value user_id challenge_id v2 tbl1 = some tbl2) :
    baseline_lookup user_id challenge_id tbl1
      = some ⟨user_id, challenge_id, v1, v1⟩
    ∧ baseline_lookup user_id challenge_id tbl2
      = some ⟨user_id, challenge_id, v2, v2⟩ := by
  rw [setbaseline_value] at h1 h2
  by_cases hb1 : |v1| > 1000000
  · rw [if_pos hb1] at h1
    exact absurd h1 (by simp)
  rw [if_neg hb1] at h1
  injection h1 with h1e
  subst h1e
  by_cases hb2 : |v2| > 1000000
  · rw [if_pos hb2] at h2
    exact absurd h2 (by simp)
  rw [if_neg hb2] at h2
  injection h2 with h2e
  subst h2e
  constructor
  · simp [baseline_lookup, List.filter_append, List.filter_filter]
  · simp [baseline_lookup, List.filter_append, List.filter_filter]

/-- Witness for C5's amended theorem: two writes of 10 then 20 leave the
stored row at baseline 20, current 20. -/
theorem setbaseline_value_last_write_wins_witness :
    baseline_lookup 42 1 [⟨42, 1, 10, 10⟩] = some ⟨42, 1, 10, 10⟩
    ∧ baseline_lookup 42 1 [⟨42, 1, 20, 20⟩] = some ⟨42, 1, 20, 20⟩ :=
  setbaseline_value_last_write_wins 42 1 10 20 [] [⟨42, 1, 10, 10⟩]
    [⟨42, 1, 20, 20⟩]
    (by rw [setbaseline_value, if_neg (by norm_num)]; rfl)
    (by rw [setbaseline_value, if_neg (by norm_num)]; rfl)

/-- Sum of a constant list. -/
theorem sum_map_const_int {α : Type} (l : List α) (cst : Int) :
    (l.map fun _ => cst).sum = l.length * cst := by
  induction l with
  | nil => simp
  | cons x xs ih =>
    simp [ih]
    ring

/-- A clock inside the active window of `staleActiveChal` (midnight,
January 1st 2025). -/
def activeNow : Int := 753300 * 86400

/-- C7: a submission of total `T` over `N` dates that passes the bounds
checks writes exactly `⌊T / N⌋` points to each of the `N` dates, for a
total written sum of `N * ⌊T / N⌋`; the written sum never exceeds `T`
and the dropped remainder is smaller than `N`, so it is never carried
forward. -/
theorem add_score_distribution (T : Int) (N : Nat) (ppd : Int)
    (dates : List Int) (user_id year month now : Int) (st : BotState)
    (c : Chal) (hN : dates.length = N)
    (h : add_score_points_check T N = some ppd)
    (hc : get_current_challenge st = some c)
    (hres : get_challenge_status_row now c.toRow = .ok .active) :
    ppd = T / (N : Int)
    ∧ (∀ r ∈ dates.map fun d =>
        (⟨user_id, mkScoreDate year month d, ppd, c.id⟩ : ScoreRow),
        r.points = T / (N : Int))
    ∧ ((dates.map fun d =>
        (⟨user_id, mkScoreDate year month d, ppd, c.id⟩ : ScoreRow)).map
          fun r => r.points).sum = (N : Int) * (T / (N : Int))
    ∧ (N : Int) * (T / (N : Int)) ≤ T
    ∧ T - (N : Int) * (T / (N : Int)) < (N : Int)
    ∧ add_score_confirm now st user_id dates ppd year month
      = .ok { st with scores := st.scores ++ dates.map fun d =>
            ⟨user_id, mkScoreDate year month d, ppd, c.id⟩ } := by
  rw [add_score_points_check] at h
  split_ifs at h with h1 h2 h3 h4
  injection h with hppd
  have hN0 : (N : Int) ≠ 0 := by
    simpa using h3
  have hNpos : (0 : Int) < (N : Int) := by
    omega
  have hdiv_le : (N : Int) * (T / (N : Int)) ≤ T := by
    rw [mul_comm]
    exact Int.ediv_mul_le T hN0
  have hmod_lt : T - (N : Int) * (T / (N : Int)) < (N : Int) := by
    have hlt := Int.emod_lt_of_pos T hNpos
    have hdef := Int.emod_def T (N : Int)
    omega
  refine ⟨hppd.symm, ?_, ?_, hdiv_le, hmod_lt, ?_⟩
  · intro r hr
    simp only [List.mem_map] at hr
    obtain ⟨d, _, rfl⟩ := hr
    exact hppd.symm
  · rw [List.map_map]
    have : ((fun r : ScoreRow => r.points) ∘ fun d =>
        (⟨user_id, mkScoreDate year month d, ppd, c.id⟩ : ScoreRow))
        = fun _ => ppd := rfl
    rw [this, sum_map_const_int, hN, hppd]
  · simp only [add_score_confirm, hc, hres]
    simp [statusStr]

/-- Witness for C7: total 10 over dates {3,4,5} writes 3 points to each
of the three dates (written sum 9, remainder 1 dropped). -/
theorem add_score_distribution_witness :
    add_score_confirm activeNow staleActiveState 42 [3, 4, 5] 3 2025 1
      = .ok { staleActiveState with scores := staleActiveState.scores
          ++ ([3, 4, 5].map fun d =>
            (⟨42, mkScoreDate 2025 1 d, 3, staleActiveChal.id⟩ : ScoreRow)) } :=
  (add_score_distribution 10 3 3 [3, 4, 5] 42 2025 1 activeNow
    staleActiveState staleActiveChal rfl (by rfl) (by rfl)
    (by rfl)).2.2.2.2.2

/-! ## StatsEngine, change variant (src/main.py:425-487, 548-558, 1337-1349) -/

/-- The derived percent change
`((current_value - baseline_value) / ABS(baseline_value)) * 100`, never
stored (src/main.py:430). -/
def percent_change (baseline current : Rat) : Rat :=
  (current - baseline) / |baseline| * 100

/-- Candidate rows of the top-gains query (src/main.py:427-436):
`WHERE challenge_id = ? AND baseline_value != 0 AND current_value > baseline_value`. -/
def top_gains_rows (tbl : List BaselineRow) (cid : Int) : List BaselineRow :=
  tbl.filter fun r => decide (r.challenge_id = cid ∧ r.baseline_value ≠ 0
    ∧ r.current_value > r.baseline_value)

/-- Candidate rows of the top-losses query (src/main.py:442-451):
`WHERE challenge_id = ? AND baseline_value != 0 AND current_value < baseline_value`. -/
def top_losses_rows (tbl : List BaselineRow) (cid : Int) : List BaselineRow :=
  tbl.filter fun r => decide (r.challenge_id = cid ∧ r.baseline_value ≠ 0
    ∧ r.current_value < r.baseline_value)

/-- Candidate rows of the average-change query (src/main.py:457-462):
`WHERE challenge_id = ? AND baseline_value != 0`. -/
def avg_change_rows (tbl : List BaselineRow) (cid : Int) : List BaselineRow :=
  tbl.filter fun r => decide (r.challenge_id = cid ∧ r.baseline_value ≠ 0)

/-- Candidate rows of the biggest-absolute-change query
(src/main.py:468-479), same eligibility filter. -/
def biggest_change_rows (tbl : List BaselineRow) (cid : Int) : List BaselineRow :=
  tbl.filter fun r => decide (r.challenge_id = cid ∧ r.baseline_value ≠ 0)

/-- Candidate rows of the change-leaderboard query of `stats_change`
(src/main.py:1338-1348), same eligibility filter. -/
def change_leaderboard_rows (tbl : List BaselineRow) (cid : Int) : List BaselineRow :=
  tbl.filter fun r => decide (r.challenge_id = cid ∧ r.baseline_value ≠ 0)

/-- Candidate rows of the final-ranking query for change challenges
(src/main.py:550-558), same eligibility filter. -/
def final_ranking_rows (tbl : List BaselineRow) (cid : Int) : List BaselineRow :=
  tbl.filter fun r => decide (r.challenge_id = cid ∧ r.baseline_value ≠ 0)

/-- `AVG(...)` of the average-change query: the mean percent change over
the eligible rows, NULL when there are none (src/main.py:457-465). -/
def avg_change (tbl : List BaselineRow) (cid : Int) : Option Rat :=
  let rows := avg_change_rows tbl cid
  if rows.isEmpty then none
  else some ((rows.map fun r =>
    percent_change r.baseline_value r.current_value).sum / rows.length)

/-- C8: a baseline/current pair of the challenge is excluded from every
change-variant aggregate exactly when its baseline equals 0; every pair
with a nonzero baseline is eligible (unconditionally for average change,
biggest absolute change, the change leaderboard and the final ranking;
for top gains exactly when current > baseline and for top losses exactly
when current < baseline, the sign conditions those two queries add), and
zero-baseline rows contribute to neither the numerator nor the
denominator of the average. -/
theorem change_aggregates_exclude_zero_baseline (tbl : List BaselineRow)
    (cid : Int) (r : BaselineRow) (hmem : r ∈ tbl)
    (hcid : r.challenge_id = cid) :
    ((r ∉ top_gains_rows tbl cid ∧ r ∉ top_losses_rows tbl cid
      ∧ r ∉ avg_change_rows tbl cid ∧ r ∉ biggest_change_rows tbl cid
      ∧ r ∉ change_leaderboard_rows tbl cid
      ∧ r ∉ final_ranking_rows tbl cid) ↔ r.baseline_value = 0)
    ∧ (r.baseline_value ≠ 0 →
      r ∈ avg_change_rows tbl cid ∧ r ∈ biggest_change_rows tbl cid
      ∧ r ∈ change_leaderboard_rows tbl cid ∧ r ∈ final_ranking_rows tbl cid
      ∧ (r ∈ top_gains_rows tbl cid ↔ r.current_value > r.baseline_value)
      ∧ (r ∈ top_losses_rows tbl cid ↔ r.current_value < r.baseline_value))
    ∧ avg_change tbl cid
      = avg_change (tbl.filter fun r => decide (r.baseline_value ≠ 0)) cid := by
  refine ⟨?_, ?_, ?_⟩
  · constructor
    · intro hex
      by_contra hb
      exact hex.2.2.1 (by
        simp [avg_change_rows, List.mem_filter, hmem, hcid, hb])
    · intro hb
      simp [top_gains_rows, top_losses_rows, avg_change_rows,
        biggest_change_rows, change_leaderboard_rows, final_ranking_rows,
        List.mem_filter, hb]
  · intro hb
    refine ⟨?_, ?_, ?_, ?_, ?_, ?_⟩ <;>
      simp [top_gains_rows, top_losses_rows, avg_change_rows,
        biggest_change_rows, change_leaderboard_rows, final_ranking_rows,
        List.mem_filter, hmem, hcid, hb]
  · have hfilter : avg_change_rows (tbl.filter fun r =>
        decide (r.baseline_value ≠ 0)) cid = avg_change_rows tbl cid := by
      simp only [avg_change_rows, List.filter_filter]
      congr 1
      funext x
      by_cases hx : x.baseline_value = 0 <;>
        by_cases hc : x.challenge_id = cid <;> simp [hx, hc]
    rw [avg_change, avg_change, hfilter]

/-- Witness for C8: a nonzero-baseline row (baseline 2, current 3) is
eligible for the average-change aggregate. -/
theorem change_aggregates_exclude_zero_baseline_witness :
    (⟨42, 1, 2, 3⟩ : BaselineRow) ∈ avg_change_rows [⟨42, 1, 2, 3⟩] 1 :=
  ((change_aggregates_exclude_zero_baseline [⟨42, 1, 2, 3⟩] 1 ⟨42, 1, 2, 3⟩
    (by simp) rfl).2.1 (by norm_num)).1

/-! ## Challenge creation and editing (src/main.py:1791-1836, 2396-2471) -/

/-- `start_challenge_confirm` (src/main.py:1791-1836): first
force-completes every challenge whose persisted status is in
{active, upcoming, grace_period}, then inserts the new challenge with
status `upcoming`.  The insert is most recent, hence at the head. -/
def start_challenge_confirm (st : BotState) (id : Int)
    (description scoring_system challenge_type type_description
     start_date end_date created_by created_at : String) : BotState :=
  { st with challenges :=
      ⟨id, description, scoring_system, start_date, end_date, "upcoming",
        created_by, created_at, challenge_type, type_description⟩
      :: st.challenges.map fun c =>
        if inActiveSet c.status then { c with status := "completed" } else c }

/-- The statuses `edit_challenge_value` accepts for the status field
(src/main.py:2396-2401). -/
def edit_challenge_statuses : List String :=
  ["active", "upcoming", "completed", "cancelled"]

/-- `edit_challenge_confirm` for field 5 (status)
(src/main.py:2423-2471): writes the validated status onto the selected
challenge, with no force-completion of any other challenge. -/
def edit_challenge_confirm_status (st : BotState) (cid : Int)
    (new_status : String) : Option BotState :=
  if new_status ∈ edit_challenge_statuses then
    some { st with challenges := update_challenge_status cid new_status st.challenges }
  else none

/-- The uniqueness invariant: at most one challenge holds a persisted
status in {active, upcoming, grace_period}. -/
def at_most_one_current (cs : List Chal) : Prop :=
  (cs.filter fun c => inActiveSet c.status).length ≤ 1

instance at_most_one_current_decidable (cs : List Chal) :
    Decidable (at_most_one_current cs) :=
  inferInstanceAs (Decidable (_ ≤ _))

/-- C9 (creation part, as amended): creating a new challenge
force-completes every challenge in {active, upcoming, grace_period}
before inserting the new one as `upcoming`, so creation always
(re)establishes the at-most-one-current invariant — but the invariant is
not preserved by every status-writing operation (see the
counterexample on the admin edit path). -/
theorem start_challenge_confirm_unique (st : BotState) (id : Int)
    (description scoring_system challenge_type type_description
     start_date end_date created_by created_at : String) :
    at_most_one_current (start_challenge_confirm st id description
      scoring_system challenge_type type_description start_date end_date
      created_by created_at).challenges := by
  have hmap : ∀ cs : List Chal,
      List.filter (fun c => inActiveSet c.status)
        (cs.map fun c =>
          if inActiveSet c.status then { c with status := "completed" } else c)
        = [] := by
    intro cs
    induction cs with
    | nil => rfl
    | cons c cs ih =>
      by_cases hcst : inActiveSet c.status
      · simp only [List.map_cons, if_pos hcst, List.filter_cons]
        have h2 : inActiveSet (({ c with status := "completed" } : Chal)).status = false := rfl
        simp only [h2, Bool.false_eq_true, if_false]
        exact ih
      · simp only [List.map_cons, if_neg hcst, List.filter_cons]
        exact ih
  simp only [at_most_one_current, start_challenge_confirm,
    List.filter_cons]
  rw [hmap]
  split <;> simp

/-- C9 counterexample: with challenge 1 `active` and challenge 2
`completed`, the invariant holds; the admin status-edit path then sets
challenge 2 to `active` (an accepted status value) without
force-completing challenge 1, leaving two challenges in the active set —
the uniqueness is not preserved by every status-writing operation. -/
theorem edit_challenge_confirm_status_breaks_uniqueness :
    at_most_one_current
      [⟨1, "a", "s", "2025-01-01", "2025-01-05", "active", "7", "t", "points", "p"⟩,
       ⟨2, "b", "s", "2024-01-01", "2024-01-05", "completed", "7", "t", "points", "p"⟩]
    ∧ edit_challenge_confirm_status
        ⟨[⟨1, "a", "s", "2025-01-01", "2025-01-05", "active", "7", "t", "points", "p"⟩,
          ⟨2, "b", "s", "2024-01-01", "2024-01-05", "completed", "7", "t", "points", "p"⟩],
         [], [], []⟩ 2 "active"
      = some ⟨[⟨1, "a", "s", "2025-01-01", "2025-01-05", "active", "7", "t", "points", "p"⟩,
          ⟨2, "b", "s", "2024-01-01", "2024-01-05", "active", "7", "t", "points", "p"⟩],
         [], [], []⟩
    ∧ ¬ at_most_one_current
      [⟨1, "a", "s", "2025-01-01", "2025-01-05", "active", "7", "t", "points", "p"⟩,
       ⟨2, "b", "s", "2024-01-01", "2024-01-05", "active", "7", "t", "points", "p"⟩] := by
  refine ⟨by decide, by decide, by decide⟩

/-! ## StatsEngine, points variant: average per active player (src/main.py:343-356) -/

/-- The inner `SELECT SUM(points) ... GROUP BY user_id` of the
average-points query: one summed total per distinct scorer of the
challenge. -/
def per_user_totals (scores : List ScoreRow) (cid : Int) : List Int :=
  let rows := scores.filter fun r => r.challenge_id == cid
  (rows.map fun r => r.user_id).dedup.map fun u =>
    ((rows.filter fun r => r.user_id == u).map fun r => r.points).sum

/-- `AVG(total_points)` over totals kept by `HAVING total_points > 0`:
the mean of the strictly positive totals, NULL when none is positive. -/
def avg_of_totals (totals : List Int) : Option Rat :=
  let pos := totals.filter fun t => decide (0 < t)
  if pos.isEmpty then none
  else some ((pos.map fun t => (t : Rat)).sum / pos.length)

/-- The `avg_points_per_player` statistic of `get_challenge_stats`
(src/main.py:343-356). -/
def avg_points_per_player (scores : List ScoreRow) (cid : Int) : Option Rat :=
  avg_of_totals (per_user_totals scores cid)

/-- C10: the average-points-per-active-player statistic is the mean of
the per-participant totals restricted to strictly positive totals: a
participant whose summed total is zero or negative is excluded from both
the numerator and the denominator, so prepending such a total to the
grouped totals leaves the statistic unchanged. -/
theorem avg_points_excludes_nonpositive (scores : List ScoreRow)
    (cid : Int) (t : Int) (totals : List Int) (ht : t ≤ 0) :
    avg_points_per_player scores cid
      = avg_of_totals (per_user_totals scores cid)
    ∧ avg_of_totals (t :: totals) = avg_of_totals totals := by
  refine ⟨rfl, ?_⟩
  have hdrop : (t :: totals).filter (fun t => decide (0 < t))
      = totals.filter fun t => decide (0 < t) := by
    rw [List.filter_cons]
    simp [show ¬(0 < t) by omega]
  rw [avg_of_totals, avg_of_totals, hdrop]

/-- Witness for C10 at the spec's example: totals {A:100, B:0, C:-5}
give average 100 — only A is counted in numerator and denominator. -/
theorem avg_points_excludes_nonpositive_witness :
    avg_of_totals (-5 :: [100, 0]) = avg_of_totals [100, 0]
    ∧ avg_points_per_player
        [⟨1, mkScoreDate 2025 1 3, 100, 1⟩,
         ⟨2, mkScoreDate 2025 1 3, 0, 1⟩,
         ⟨3, mkScoreDate 2025 1 3, -5, 1⟩] 1 = some 100 := by
  refine ⟨(avg_points_excludes_nonpositive [] 1 (-5) [100, 0] (by norm_num)).2, ?_⟩
  have hper : per_user_totals
      [⟨1, mkScoreDate 2025 1 3, 100, 1⟩,
       ⟨2, mkScoreDate 2025 1 3, 0, 1⟩,
       ⟨3, mkScoreDate 2025 1 3, -5, 1⟩] 1 = [100, 0, -5] := rfl
  have hf : List.filter (fun t => decide (0 < t)) ([100, 0, -5] : List Int)
      = ([100] : List Int) := rfl
  rw [avg_points_per_player, hper]
  norm_num [avg_of_totals, hf]

/-! ## LifecycleScheduler: `check_and_send_notifications` (src/main.py:502-671) -/

/-- Result of one scheduler tick: the persisted state afterwards, the
outbound messages as (challenge_id, event_kind) pairs, and the raised
error when the tick aborts. -/
structure TickResult where
  state : BotState
  sent : List (Int × String)
  err : Option String

/-- The event-dispatch part of a tick (src/main.py:515-671), given the
current challenge `c`, the resolved status `actual` and the state `st1`
after the persisted-status reconciliation.  Each branch checks
`has_notification_been_sent` before emitting and marks after; the
final-results branch additionally persists the status `completed`
(src/main.py:669-671).  In the start branch the code first reformats
`challenge[5]` and `challenge[6]` with `strptime(·, '%Y-%m-%d')`
(src/main.py:517-518), which raises when those columns are not dates
(for a legacy-order row column 5 is the status). -/
def tick_events (now : Int) (c : Chal) (actual : ChallengeStatus)
    (st1 : BotState) : TickResult :=
  if statusStr actual = "active"
      ∧ has_notification_been_sent c.id "start" st1.challenge_notifications = false then
    match parseDateStr c.toRow.col5 with
    | none => ⟨st1, [], some "ValueError: start notification"⟩
    | some _ =>
      match parseDateStr c.toRow.col6 with
      | none => ⟨st1, [], some "ValueError: start notification"⟩
      | some _ =>
        ⟨{ st1 with challenge_notifications :=
            mark_notification_sent now c.id "start" st1.challenge_notifications },
          [(c.id, "start")], none⟩
  else if statusStr actual = "grace_period"
      ∧ has_notification_been_sent c.id "ending" st1.challenge_notifications = false then
    ⟨{ st1 with challenge_notifications :=
        mark_notification_sent now c.id "ending" st1.challenge_notifications },
      [(c.id, "ending")], none⟩
  else if statusStr actual = "ended"
      ∧ has_notification_been_sent c.id "final_results" st1.challenge_notifications = false then
    ⟨{ st1 with
        challenge_notifications :=
          mark_notification_sent now c.id "final_results" st1.challenge_notifications,
        challenges := update_challenge_status c.id "completed" st1.challenges },
      [(c.id, "final_results")], none⟩
  else ⟨st1, [], none⟩

/-- One scheduler tick (src/main.py:502-671): load the current
challenge (none: return), resolve its status (a parse failure aborts the
tick), persist the resolved status when it differs from the stored one,
then dispatch events. -/
def check_and_send_notifications (now : Int) (st : BotState) : TickResult :=
  match get_current_challenge st with
  | none => ⟨st, [], none⟩
  | some c =>
    match get_challenge_status_row now c.toRow with
    | .error e => ⟨st, [], some e⟩
    | .ok actual =>
      tick_events now c actual
        (if c.status ≠ statusStr actual then
          { st with challenges :=
              update_challenge_status c.id (statusStr actual) st.challenges }
        else st)

/-- Dispatch emits nothing, or exactly one unsent event which it marks. -/
theorem tick_events_spec (now : Int) (c : Chal) (actual : ChallengeStatus)
    (st1 : BotState) :
    ((tick_events now c actual st1).sent = []
      ∧ (tick_events now c actual st1).state.challenge_notifications
        = st1.challenge_notifications)
    ∨ ∃ ty, (tick_events now c actual st1).sent = [(c.id, ty)]
      ∧ has_notification_been_sent c.id ty st1.challenge_notifications = false
      ∧ (tick_events now c actual st1).state.challenge_notifications
        = mark_notification_sent now c.id ty st1.challenge_notifications := by
  unfold tick_events
  split_ifs with h1 h2 h3
  · cases hp5 : parseDateStr c.toRow.col5 with
    | none => exact Or.inl ⟨rfl, rfl⟩
    | some v5 =>
      cases hp6 : parseDateStr c.toRow.col6 with
      | none => exact Or.inl ⟨rfl, rfl⟩
      | some v6 => exact Or.inr ⟨"start", rfl, h1.2, rfl⟩
  · exact Or.inr ⟨"ending", rfl, h2.2, rfl⟩
  · exact Or.inr ⟨"final_results", rfl, h3.2, rfl⟩
  · exact Or.inl ⟨rfl, rfl⟩

/-- A tick emits nothing, or exactly one event that was unsent in the
incoming state and is marked sent in the outgoing state. -/
theorem tick_spec (now : Int) (st : BotState) :
    ((check_and_send_notifications now st).sent = []
      ∧ (check_and_send_notifications now st).state.challenge_notifications
        = st.challenge_notifications)
    ∨ ∃ cid ty, (check_and_send_notifications now st).sent = [(cid, ty)]
      ∧ has_notification_been_sent cid ty st.challenge_notifications = false
      ∧ (check_and_send_notifications now st).state.challenge_notifications
        = mark_notification_sent now cid ty st.challenge_notifications := by
  cases hg : get_current_challenge st with
  | none =>
    have hred : check_and_send_notifications now st = ⟨st, [], none⟩ := by
      simp only [check_and_send_notifications, hg]
    rw [hred]
    exact Or.inl ⟨rfl, rfl⟩
  | some c =>
    cases hs : get_challenge_status_row now c.toRow with
    | error e =>
      have hred : check_and_send_notifications now st = ⟨st, [], some e⟩ := by
        simp only [check_and_send_notifications, hg, hs]
      rw [hred]
      exact Or.inl ⟨rfl, rfl⟩
    | ok actual =>
      have hred : check_and_send_notifications now st
          = tick_events now c actual
            (if c.status ≠ statusStr actual then
              { st with challenges :=
                  update_challenge_status c.id (statusStr actual) st.challenges }
            else st) := by
        simp only [check_and_send_notifications, hg, hs]
      have hnotif : (if c.status ≠ statusStr actual then
          { st with challenges :=
              update_challenge_status c.id (statusStr actual) st.challenges }
          else st).challenge_notifications = st.challenge_notifications := by
        split <;> rfl
      rw [hred]
      rcases tick_events_spec now c actual
          (if c.status ≠ statusStr actual then
            { st with challenges :=
                update_challenge_status c.id (statusStr actual) st.challenges }
          else st) with ⟨hsent, hst⟩ | ⟨ty, hsent, hunsent, hmark⟩
      · exact Or.inl ⟨hsent, by rw [hst, hnotif]⟩
      · refine Or.inr ⟨c.id, ty, hsent, ?_, ?_⟩
        · rw [hnotif] at hunsent
          exact hunsent
        · rw [hmark, hnotif]

/-- Marking a key makes it read as sent. -/
theorem has_notification_been_sent_mark (now cid : Int) (ty : String)
    (tbl : List NotifRow) :
    has_notification_been_sent cid ty (mark_notification_sent now cid ty tbl)
      = true := by
  simp [has_notification_been_sent, mark_notification_sent]

/-- Only the final-results branch emits "final_results", and it persists
`completed` on the current challenge. -/
theorem tick_events_final_results (now : Int) (c : Chal)
    (actual : ChallengeStatus) (st1 : BotState) (cid : Int)
    (hmem : (cid, "final_results") ∈ (tick_events now c actual st1).sent) :
    cid = c.id ∧ (tick_events now c actual st1).state.challenges
      = update_challenge_status c.id "completed" st1.challenges := by
  unfold tick_events at hmem ⊢
  split_ifs at hmem ⊢ with h1 h2 h3
  · cases hp5 : parseDateStr c.toRow.col5 with
    | none =>
      rw [hp5] at hmem
      simp at hmem
    | some v5 =>
      rw [hp5] at hmem
      cases hp6 : parseDateStr c.toRow.col6 with
      | none =>
        rw [hp6] at hmem
        simp at hmem
      | some v6 =>
        rw [hp6] at hmem
        simp at hmem
  · simp at hmem
  · simp at hmem
    exact ⟨hmem, rfl⟩
  · simp at hmem

/-- A challenge matching the updated id reads `completed` afterwards. -/
theorem update_challenge_status_completed (cs : List Chal) (cid : Int)
    (ch : Chal) (hch : ch ∈ update_challenge_status cid "completed" cs)
    (hid : ch.id = cid) : ch.status = "completed" := by
  unfold update_challenge_status at hch
  rw [List.mem_map] at hch
  obtain ⟨c', hc', heq⟩ := hch
  by_cases h : c'.id = cid
  · rw [if_pos h] at heq
    rw [← heq]
  · rw [if_neg h] at heq
    rw [← heq] at hid
    exact absurd hid h

/-- C4: running the scheduler tick twice in succession at the same
clock time sends at most one outbound message per
(challenge, event_kind) pair — each lifecycle event is emitted only when
its notification marker is absent and the marker is written with the
emission, so the second tick re-emits nothing — and after emitting the
final_results event the tick persists the challenge as `completed`, so a
subsequent tick finds no current challenge to act on. -/
theorem scheduler_tick_at_most_once (now : Int) (st : BotState)
    (cid : Int) (ty : String) :
    ((check_and_send_notifications now st).sent
      ++ (check_and_send_notifications now
          (check_and_send_notifications now st).state).sent).count
        (cid, ty) ≤ 1
    ∧ ((cid, "final_results") ∈ (check_and_send_notifications now st).sent →
        ∀ ch ∈ (check_and_send_notifications now st).state.challenges,
          ch.id = cid → ch.status = "completed") := by
  constructor
  · rcases tick_spec now st with ⟨h1, _⟩ | ⟨cid1, ty1, h1, hunsent1, hmark1⟩
    · rcases tick_spec now (check_and_send_notifications now st).state with
        ⟨h2, _⟩ | ⟨cid2, ty2, h2, _, _⟩
      · rw [h1, h2]
        simp
      · rw [h1, h2, List.nil_append]
        exact le_trans (List.count_le_length _ _) (by simp)
    · rcases tick_spec now (check_and_send_notifications now st).state with
        ⟨h2, _⟩ | ⟨cid2, ty2, h2, hunsent2, _⟩
      · rw [h1, h2, List.count_append]
        have hb := List.count_le_length (cid, ty) [(cid1, ty1)]
        simp only [List.length_cons, List.length_nil, List.count_nil] at hb ⊢
        omega
      · rw [h1, h2, List.count_append]
        by_cases hx : (cid, ty) = (cid1, ty1)
        · by_cases hy : (cid, ty) = (cid2, ty2)
          · exfalso
            have hcc : cid2 = cid1 ∧ ty2 = ty1 := by
              have hxy := hx.symm.trans hy
              exact ⟨(Prod.mk.injEq cid1 ty1 cid2 ty2 ▸ hxy).1.symm,
                (Prod.mk.injEq cid1 ty1 cid2 ty2 ▸ hxy).2.symm⟩
            rw [hcc.1, hcc.2, hmark1, has_notification_been_sent_mark] at hunsent2
            exact Bool.noConfusion hunsent2
          · have h0 : List.count (cid, ty) [(cid2, ty2)] = 0 :=
              List.count_eq_zero.mpr (by simp [hy])
            have hb := List.count_le_length (cid, ty) [(cid1, ty1)]
            simp only [List.length_cons, List.length_nil] at hb
            omega
        · have h0 : List.count (cid, ty) [(cid1, ty1)] = 0 :=
            List.count_eq_zero.mpr (by simp [hx])
          have hb := List.count_le_length (cid, ty) [(cid2, ty2)]
          simp only [List.length_cons, List.length_nil] at hb
          omega
  · intro hmem ch hch hid
    cases hg : get_current_challenge st with
    | none =>
      have hred : check_and_send_notifications now st = ⟨st, [], none⟩ := by
        simp only [check_and_send_notifications, hg]
      rw [hred] at hmem
      simp at hmem
    | some c =>
      cases hs : get_challenge_status_row now c.toRow with
      | error e =>
        have hred : check_and_send_notifications now st = ⟨st, [], some e⟩ := by
          simp only [check_and_send_notifications, hg, hs]
        rw [hred] at hmem
        simp at hmem
      | ok actual =>
        have hred : check_and_send_notifications now st
            = tick_events now c actual
              (if c.status ≠ statusStr actual then
                { st with challenges :=
                    update_challenge_status c.id (statusStr actual) st.challenges }
              else st) := by
          simp only [check_and_send_notifications, hg, hs]
        rw [hred] at hmem hch
        obtain ⟨hcid, hchal⟩ := tick_events_final_results now c actual _ cid hmem
        rw [hchal] at hch
        exact update_challenge_status_completed _ _ _ hch (hid.trans hcid)
